import Mathlib

/-!
Shallow embedding of the JWE key-management (RSAES) and content-encryption
(AES-GCM) algorithm families of josekit-rs, from
`src/jwe/alg/rsaes.rs` and `src/jwe/enc/aes_gcm.rs`.

External collaborators (the `openssl`, `base64` and DER-builder crates, the
`Jwk` accessor and the `JweHeader`) are modelled through their consumed
surfaces; the RSA modular operations of openssl follow their documented
mathematics (`RSA_public_encrypt` and `RSA_public_decrypt` use the public
exponent `e`, `RSA_private_decrypt` uses the private exponent `d`, each
composed with the padding transform selected by the `Padding` argument).
-/

namespace Josekit

/-- Byte strings, as lists of naturals (conceptually each `< 256`). -/
abbrev Bytes := List Nat

/-- Big-endian interpretation of a byte string as a natural number. -/
def bytesToNat (bs : Bytes) : Nat := bs.foldl (fun a b => a * 256 + b) 0

/-- Big-endian encoding of `n` into exactly `len` bytes, as openssl writes an
RSA result into a buffer of `RSA_size` bytes. -/
def natToBytesFixed (len n : Nat) : Bytes :=
  (List.range len).map (fun i => n / 256 ^ (len - 1 - i) % 256)

/-- ASN.1 object identifier, by its arc components (`der::oid::ObjectIdentifier`). -/
structure ObjectIdentifier where
  components : List Nat
deriving DecidableEq

/-- `OID_RSA_ENCRYPTION` from rsaes.rs. -/
def OID_RSA_ENCRYPTION : ObjectIdentifier := ⟨[1, 2, 840, 113549, 1, 1, 1]⟩

/-- `OID_RSAES_OAEP` from rsaes.rs. -/
def OID_RSAES_OAEP : ObjectIdentifier := ⟨[1, 2, 840, 113549, 1, 1, 7]⟩

/-- `OID_P_SPECIFIED` from rsaes.rs. -/
def OID_P_SPECIFIED : ObjectIdentifier := ⟨[1, 2, 840, 113549, 1, 1, 9]⟩

/-- `OID_SHA1` from rsaes.rs. -/
def OID_SHA1 : ObjectIdentifier := ⟨[1, 3, 14, 3, 2, 26]⟩

/-- `OID_SHA256` from rsaes.rs. -/
def OID_SHA256 : ObjectIdentifier := ⟨[2, 16, 840, 1, 101, 3, 4, 2, 1]⟩

/-- `OID_SHA384` from rsaes.rs. -/
def OID_SHA384 : ObjectIdentifier := ⟨[2, 16, 840, 1, 101, 3, 4, 2, 2]⟩

/-- `OID_SHA512` from rsaes.rs. -/
def OID_SHA512 : ObjectIdentifier := ⟨[2, 16, 840, 1, 101, 3, 4, 2, 3]⟩

/-- `OID_MGF1` from rsaes.rs. -/
def OID_MGF1 : ObjectIdentifier := ⟨[1, 2, 840, 113549, 1, 1, 8]⟩

/-- The DER value assembled through the external `DerBuilder` collaborator:
one constructor per `append_*` method used by rsaes.rs, with `sequence` and
`contextSpecific` standing for the `begin`/`end` scopes. -/
inductive DerValue where
  /-- `append_integer_from_be_slice(bytes, signed)` -/
  | integer (bs : Bytes) (signed : Bool)
  /-- `append_integer_from_u8(v)` -/
  | integerU8 (v : Nat)
  /-- `append_object_identifier(oid)` -/
  | oid (o : ObjectIdentifier)
  /-- `append_null()` -/
  | nullV
  /-- `append_bit_string_from_slice(bytes, unused_bits)` -/
  | bitString (bs : Bytes) (unused : Nat)
  /-- `append_octed_string_from_slice(bytes)` -/
  | octetString (bs : Bytes)
  /-- `begin(DerType::Sequence) ... end()` -/
  | sequence (elems : List DerValue)
  /-- `begin(DerType::Other(DerClass::ContextSpecific, tag)) ... end()` -/
  | contextSpecific (tag : Nat) (elems : List DerValue)

/-- An RSA key as held by an openssl `PKey`/`Rsa` handle: modulus `n`, public
exponent `e`, private exponent `d` (`d` is meaningless on public keys and is
never consulted by a public-key operation). -/
structure RsaKey where
  n : Nat
  e : Nat
  d : Nat
deriving DecidableEq

/-- openssl `rsa.size()`: the modulus length in bytes, `(BN_num_bits(n)+7)/8`. -/
def RsaKey.size (k : RsaKey) : Nat := (Nat.size k.n + 7) / 8

/-- A padding transform (the behaviour openssl attaches to a `Padding`
selector): `pad size msg` produces the padded block for a `size`-byte modulus
(`none` when the message does not fit), `unpad` inverts it (`none` on a
malformed block). -/
structure PaddingScheme where
  pad : Nat → Bytes → Option Bytes
  unpad : Bytes → Option Bytes

/-- The external collaborators consumed by rsaes.rs, bundled: base64url
decoding (`base64::decode_config` with `URL_SAFE_NO_PAD`), the DER builder's
`build()` serialisation, openssl key parsing from DER, the OS random source
(`rand::rand_bytes`), and the two padding transforms used
(`Padding::PKCS1`, `Padding::PKCS1_OAEP`). -/
structure Externals where
  b64decode : String → Option Bytes
  derBuild : DerValue → Bytes
  public_key_from_der : Bytes → Option RsaKey
  private_key_from_der : Bytes → Option RsaKey
  rand_bytes : Nat → Bytes
  pkcs1 : PaddingScheme
  pkcs1_oaep : PaddingScheme

/-- openssl `rsa.public_encrypt(msg, buf, padding)`: pad the message, then
apply the public-exponent RSA operation `m ^ e mod n`, writing `rsa.size()`
bytes. -/
def public_encrypt (ps : PaddingScheme) (k : RsaKey) (msg : Bytes) : Option Bytes :=
  match ps.pad k.size msg with
  | none => none
  | some padded => some (natToBytesFixed k.size (bytesToNat padded ^ k.e % k.n))

/-- openssl `rsa.public_decrypt(c, buf, padding)`: apply the public-exponent
RSA operation `c ^ e mod n` (the signature-recovery direction), then unpad. -/
def public_decrypt (ps : PaddingScheme) (k : RsaKey) (c : Bytes) : Option Bytes :=
  ps.unpad (natToBytesFixed k.size (bytesToNat c ^ k.e % k.n))

/-- openssl `rsa.private_decrypt(c, buf, padding)`: apply the private-exponent
RSA operation `c ^ d mod n`, then unpad. -/
def private_decrypt (ps : PaddingScheme) (k : RsaKey) (c : Bytes) : Option Bytes :=
  ps.unpad (natToBytesFixed k.size (bytesToNat c ^ k.d % k.n))

/-- `JoseError`: the two error kinds produced by these two source files. -/
inductive JoseError where
  | InvalidKeyFormat (msg : String)
  | InvalidJweFormat (msg : String)
deriving DecidableEq

/-- Result of a Rust call that can return `Ok`, return `Err`, or panic
(`todo!()` unwinds instead of returning). -/
inductive Ret (ε α : Type) where
  | ok (val : α)
  | error (e : ε)
  | panicked (msg : String)
deriving DecidableEq

/-- True exactly on the `error` outcome. -/
def Ret.isErr : Ret ε α → Bool
  | .error _ => true
  | _ => false

/-- The closing `map_err(|err| JoseError::InvalidKeyFormat(err))` of the
factories and of `RsaesJweEncrypter::encrypt`. -/
def wrapKeyFormat : Except String α → Ret JoseError α
  | .ok a => .ok a
  | .error s => .error (.InvalidKeyFormat s)

/-- A JSON value as far as `jwk.parameter(...)` is inspected: the code only
distinguishes `Value::String` from every other variant. -/
inductive JsonValue where
  | str (s : String)
  | other
deriving DecidableEq

/-- The `Jwk` accessor surface consumed by rsaes.rs: `key_type()`,
`key_use()`, `is_for_key_operation(op)`, `algorithm()`, `key_id()`,
`parameter(name)`. -/
structure Jwk where
  key_type : String
  key_use : Option String
  is_for_key_operation : String → Bool
  algorithm : Option String
  key_id : Option String
  parameter : String → Option JsonValue

/-- The `JweHeader` surface consumed here: an algorithm field written by
`set_algorithm`, and the remaining header entries (owned by the engine,
untouched by this core). -/
structure JweHeader where
  algorithm : Option String
  rest : List (String × String)
deriving DecidableEq

/-- `JweHeader::set_algorithm(name)`. -/
def JweHeader.set_algorithm (h : JweHeader) (v : String) : JweHeader :=
  { h with algorithm := some v }

/-- `RsaesJweAlgorithm` from rsaes.rs. -/
inductive RsaesJweAlgorithm where
  /-- RSAES-PKCS1-v1_5 -/
  | Rsa1_5
  /-- RSAES OAEP using default parameters -/
  | RsaOaep
  /-- RSAES OAEP using SHA-256 and MGF1 with SHA-256 -/
  | RsaOaep256
  /-- RSAES OAEP using SHA-384 and MGF1 with SHA-384 -/
  | RsaOaep384
  /-- RSAES OAEP using SHA-512 and MGF1 with SHA-512 -/
  | RsaOaep512
deriving DecidableEq

/-- `JweAlgorithm::name` for `RsaesJweAlgorithm`. -/
def RsaesJweAlgorithm.name : RsaesJweAlgorithm → String
  | .Rsa1_5 => "RSA1_5"
  | .RsaOaep => "RSA-OAEP"
  | .RsaOaep256 => "RSA-OAEP-256"
  | .RsaOaep384 => "RSA-OAEP-384"
  | .RsaOaep512 => "RSA-OAEP-512"

/-- `RsaesJweAlgorithm::hash_oid`. The `Rsa1_5` arm is `unreachable!()` in the
source (never taken: `to_pkcs8` only calls this in its non-`Rsa1_5` branch);
it is given the empty OID here. -/
def RsaesJweAlgorithm.hash_oid : RsaesJweAlgorithm → ObjectIdentifier
  | .RsaOaep => OID_SHA1
  | .RsaOaep256 => OID_SHA256
  | .RsaOaep384 => OID_SHA384
  | .RsaOaep512 => OID_SHA512
  | .Rsa1_5 => ⟨[]⟩

/-- `RsaesJweAlgorithm::check_key`: reject when `rsa.size() * 8 < 2048`. -/
def RsaesJweAlgorithm.check_key (_alg : RsaesJweAlgorithm) (k : RsaKey) : Except String Unit :=
  if k.size * 8 < 2048 then .error "key length must be 2048 or more." else .ok ()

/-- `RsaesJweAlgorithm::to_pkcs8(input, is_public)`: the PKCS8 wrapper built
around the raw key bytes — version prefix for private keys, algorithm
identifier (`rsaEncryption` + NULL for RSA1_5, `id-RSAES-OAEP` with the
OAEP-params sequence `{[0] hash, [1] MGF1(hash), [2] pSpecified}` otherwise),
then the payload as a BIT STRING (public) or OCTET STRING (private). -/
def RsaesJweAlgorithm.to_pkcs8 (alg : RsaesJweAlgorithm) (env : Externals)
    (input : Bytes) (is_public : Bool) : Bytes :=
  let algorithmIdent : List DerValue :=
    match alg with
    | .Rsa1_5 => [.oid OID_RSA_ENCRYPTION, .nullV]
    | _ =>
      [.oid OID_RSAES_OAEP,
       .sequence
         [.contextSpecific 0 [.sequence [.oid alg.hash_oid]],
          .contextSpecific 1 [.sequence [.oid OID_MGF1, .sequence [.oid alg.hash_oid]]],
          .contextSpecific 2 [.oid OID_P_SPECIFIED]]]
  env.derBuild (.sequence
    ((if is_public then [] else [DerValue.integerU8 0]) ++
     [DerValue.sequence algorithmIdent] ++
     [if is_public then DerValue.bitString input 0 else DerValue.octetString input]))

/-- The `match jwk.key_use()` block of `encrypter_from_jwk`: absent or
`"enc"` passes, anything else bails. -/
def encrypterUseCheck : Option String → Except String Unit
  | some val => if val = "enc" then .ok () else .error ("A parameter use must be enc: " ++ val)
  | none => .ok ()

/-- The `match jwk.key_use()` block of `decrypter_from_jwk`: absent or
`"sig"` passes, anything else bails. -/
def decrypterUseCheck : Option String → Except String Unit
  | some val => if val = "sig" then .ok () else .error ("A parameter use must be sig: " ++ val)
  | none => .ok ()

/-- The `match jwk.algorithm()` block shared by both factories: absent or
equal to the variant's canonical name passes. -/
def algCheck (alg : RsaesJweAlgorithm) : Option String → Except String Unit
  | some val =>
    if val = alg.name then .ok ()
    else .error ("A parameter alg must be " ++ alg.name ++ " but " ++ val)
  | none => .ok ()

/-- The repeated `match jwk.parameter(name)` blocks of both factories: the
parameter must be present, be a JSON string, and base64url-decode. -/
def getB64Param (env : Externals) (jwk : Jwk) (nm : String) : Except String Bytes :=
  match jwk.parameter nm with
  | some (.str val) =>
    match env.b64decode val with
    | some bs => .ok bs
    | none => .error ("A parameter " ++ nm ++ " is invalid base64.")
  | some _ => .error ("A parameter " ++ nm ++ " must be a string.")
  | none => .error ("A parameter " ++ nm ++ " is required.")

/-- `RsaesJweEncrypter` from rsaes.rs. -/
structure RsaesJweEncrypter where
  algorithm : RsaesJweAlgorithm
  public_key : RsaKey
  key_id : Option String
deriving DecidableEq

/-- `RsaesJweDecrypter` from rsaes.rs. -/
structure RsaesJweDecrypter where
  algorithm : RsaesJweAlgorithm
  private_key : RsaKey
  key_id : Option String
deriving DecidableEq

/-- `RsaesJweAlgorithm::encrypter_from_jwk`, with its checks and steps in
source order: kty, use, key_ops, alg, `n`, `e`, DER `SEQUENCE{n, e}`,
PKCS8 wrap, openssl parse, key id, `check_key`. -/
def RsaesJweAlgorithm.encrypter_from_jwk (alg : RsaesJweAlgorithm) (env : Externals)
    (jwk : Jwk) : Ret JoseError RsaesJweEncrypter :=
  wrapKeyFormat (
    if jwk.key_type ≠ "RSA" then .error ("A parameter kty must be RSA: " ++ jwk.key_type) else
    match encrypterUseCheck jwk.key_use with
    | .error s => .error s
    | .ok _ =>
    if ¬(jwk.is_for_key_operation "encrypt") ∨ ¬(jwk.is_for_key_operation "wrapKey") then
      .error "A parameter key_ops must contains encrypt and wrapKey."
    else
    match algCheck alg jwk.algorithm with
    | .error s => .error s
    | .ok _ =>
    match getB64Param env jwk "n" with
    | .error s => .error s
    | .ok n =>
    match getB64Param env jwk "e" with
    | .error s => .error s
    | .ok e =>
    let key_der := env.derBuild (.sequence [.integer n false, .integer e false])
    let pkcs8 := alg.to_pkcs8 env key_der true
    match env.public_key_from_der pkcs8 with
    | none => .error "invalid public key der"
    | some public_key =>
    let key_id := jwk.key_id
    match alg.check_key public_key with
    | .error s => .error s
    | .ok _ =>
      .ok { algorithm := alg, public_key := public_key, key_id := key_id })

/-- `RsaesJweAlgorithm::decrypter_from_jwk`, with its checks and steps in
source order: kty, use, key_ops, alg, the eight numeric fields, DER
`SEQUENCE{0, n, e, d, p, q, dp, dq, qi}`, PKCS8 wrap, openssl parse, key id,
`check_key`. -/
def RsaesJweAlgorithm.decrypter_from_jwk (alg : RsaesJweAlgorithm) (env : Externals)
    (jwk : Jwk) : Ret JoseError RsaesJweDecrypter :=
  wrapKeyFormat (
    if jwk.key_type ≠ "RSA" then .error ("A parameter kty must be RSA: " ++ jwk.key_type) else
    match decrypterUseCheck jwk.key_use with
    | .error s => .error s
    | .ok _ =>
    if ¬(jwk.is_for_key_operation "decrypt") ∨ ¬(jwk.is_for_key_operation "unwrapKey") then
      .error "A parameter key_ops must contains decrypt and unwrapKey."
    else
    match algCheck alg jwk.algorithm with
    | .error s => .error s
    | .ok _ =>
    match getB64Param env jwk "n" with
    | .error s => .error s
    | .ok n =>
    match getB64Param env jwk "e" with
    | .error s => .error s
    | .ok e =>
    match getB64Param env jwk "d" with
    | .error s => .error s
    | .ok d =>
    match getB64Param env jwk "p" with
    | .error s => .error s
    | .ok p =>
    match getB64Param env jwk "q" with
    | .error s => .error s
    | .ok q =>
    match getB64Param env jwk "dp" with
    | .error s => .error s
    | .ok dp =>
    match getB64Param env jwk "dq" with
    | .error s => .error s
    | .ok dq =>
    match getB64Param env jwk "qi" with
    | .error s => .error s
    | .ok qi =>
    let key_der := env.derBuild (.sequence
      [.integerU8 0, .integer n false, .integer e false, .integer d false,
       .integer p false, .integer q false, .integer dp false, .integer dq false,
       .integer qi false])
    let pkcs8 := alg.to_pkcs8 env key_der false
    match env.private_key_from_der pkcs8 with
    | none => .error "invalid private key der"
    | some private_key =>
    let key_id := jwk.key_id
    match alg.check_key private_key with
    | .error s => .error s
    | .ok _ =>
      .ok { algorithm := alg, private_key := private_key, key_id := key_id })

/-- `RsaesJweEncrypter::encrypt(header, key_len)`: set the header's algorithm
name first, draw `key_len` random bytes as the CEK, then wrap the CEK with
the public key under the variant's padding (`todo!()` — a panic — for the
SHA-2 OAEP variants). Returns the mutated header alongside the outcome,
since the mutation happens before the wrap attempt. -/
def RsaesJweEncrypter.encrypt (env : Externals) (self : RsaesJweEncrypter)
    (header : JweHeader) (key_len : Nat) :
    JweHeader × Ret JoseError (Bytes × Option Bytes) :=
  let header := header.set_algorithm self.algorithm.name
  let key := env.rand_bytes key_len
  let rsa := self.public_key
  let outcome : Ret JoseError (Bytes × Option Bytes) :=
    match self.algorithm with
    | .Rsa1_5 =>
      match public_encrypt env.pkcs1 rsa key with
      | some encrypted_key => .ok (key, some encrypted_key)
      | none => .error (.InvalidKeyFormat "openssl public_encrypt failed")
    | .RsaOaep =>
      match public_encrypt env.pkcs1_oaep rsa key with
      | some encrypted_key => .ok (key, some encrypted_key)
      | none => .error (.InvalidKeyFormat "openssl public_encrypt failed")
    | .RsaOaep256 => .panicked "not yet implemented"
    | .RsaOaep384 => .panicked "not yet implemented"
    | .RsaOaep512 => .panicked "not yet implemented"
  (header, outcome)

/-- `RsaesJweDecrypter::decrypt(_header, encrypted_key, key_len)`: bail when
the wrapped key is absent; otherwise recover a key with
`rsa.public_decrypt` under the variant's padding (`todo!()` — a panic — for
the SHA-2 OAEP variants), then require the recovered length to equal
`key_len` exactly. The header parameter is never read (`_header`). -/
def RsaesJweDecrypter.decrypt (env : Externals) (self : RsaesJweDecrypter)
    (_header : JweHeader) (encrypted_key : Option Bytes) (key_len : Nat) :
    Ret JoseError Bytes :=
  match encrypted_key with
  | none => .error (.InvalidJweFormat "A encrypted_key is required.")
  | some encrypted_key =>
    let rsa := self.private_key
    let res : Ret String Bytes :=
      match self.algorithm with
      | .Rsa1_5 =>
        match public_decrypt env.pkcs1 rsa encrypted_key with
        | some key => .ok key
        | none => .error "openssl public_decrypt failed"
      | .RsaOaep =>
        match public_decrypt env.pkcs1_oaep rsa encrypted_key with
        | some key => .ok key
        | none => .error "openssl public_decrypt failed"
      | .RsaOaep256 => .panicked "not yet implemented"
      | .RsaOaep384 => .panicked "not yet implemented"
      | .RsaOaep512 => .panicked "not yet implemented"
    match res with
    | .ok key =>
      if key.length ≠ key_len then
        .error (.InvalidJweFormat "The key size is unexpected.")
      else .ok key
    | .error s => .error (.InvalidJweFormat s)
    | .panicked m => .panicked m

/-- The padding transform `decrypt` selects for each implemented variant
(`Padding::PKCS1` for RSA1_5, `Padding::PKCS1_OAEP` for RSA-OAEP). -/
def paddingFor (env : Externals) : RsaesJweAlgorithm → PaddingScheme
  | .Rsa1_5 => env.pkcs1
  | _ => env.pkcs1_oaep

/-- The openssl `Cipher` values selected by aes_gcm.rs. -/
inductive Cipher where
  | aes_128_gcm
  | aes_192_gcm
  | aes_256_gcm
deriving DecidableEq

/-- The `openssl::symm` surface consumed by aes_gcm.rs: `encrypt_aead`
returns the ciphertext together with the 16-byte tag it writes into the
caller's buffer; `decrypt_aead` authenticates and returns the plaintext
(`none` on any tag mismatch or cipher failure). -/
structure SymmExternals where
  encrypt_aead : Cipher → Bytes → Option Bytes → Bytes → Bytes → Option (Bytes × Bytes)
  decrypt_aead : Cipher → Bytes → Option Bytes → Bytes → Bytes → Bytes → Option Bytes

/-- `AesGcmJweEncryption` from aes_gcm.rs. -/
inductive AesGcmJweEncryption where
  /-- AES GCM using 128-bit key -/
  | A128Gcm
  /-- AES GCM using 192-bit key -/
  | A192Gcm
  /-- AES GCM using 256-bit key -/
  | A256Gcm
deriving DecidableEq

/-- `AesGcmJweEncryption::cipher`. -/
def AesGcmJweEncryption.cipher : AesGcmJweEncryption → Cipher
  | .A128Gcm => .aes_128_gcm
  | .A192Gcm => .aes_192_gcm
  | .A256Gcm => .aes_256_gcm

/-- `JweContentEncryption::name` for `AesGcmJweEncryption`. -/
def AesGcmJweEncryption.name : AesGcmJweEncryption → String
  | .A128Gcm => "A128GCM"
  | .A192Gcm => "A192GCM"
  | .A256Gcm => "A256GCM"

/-- `JweContentEncryption::key_len` for `AesGcmJweEncryption`. -/
def AesGcmJweEncryption.key_len : AesGcmJweEncryption → Nat
  | .A128Gcm => 16
  | .A192Gcm => 24
  | .A256Gcm => 32

/-- `JweContentEncryption::iv_len` for `AesGcmJweEncryption`. -/
def AesGcmJweEncryption.iv_len (_self : AesGcmJweEncryption) : Nat := 12

/-- `AesGcmJweEncryption::encrypt(key, iv, message, aad)`: reject a key whose
length differs from the variant's `key_len`, then run AEAD encryption,
returning the ciphertext and the 16-byte tag. -/
def AesGcmJweEncryption.encrypt (env : SymmExternals) (self : AesGcmJweEncryption)
    (key : Bytes) (iv : Option Bytes) (message : Bytes) (aad : Bytes) :
    Ret JoseError (Bytes × Option Bytes) :=
  let expected_len := self.key_len
  if key.length ≠ expected_len then
    .error (.InvalidKeyFormat "The length of content encryption key is unexpected.")
  else
    match env.encrypt_aead self.cipher key iv aad message with
    | some (encrypted_message, tag) => .ok (encrypted_message, some tag)
    | none => .error (.InvalidKeyFormat "openssl encrypt_aead failed")

/-- `AesGcmJweEncryption::decrypt(key, iv, encrypted_message, aad, tag)`:
reject a key whose length differs from the variant's `key_len`, require the
tag to be present, then run authenticated AEAD decryption. -/
def AesGcmJweEncryption.decrypt (env : SymmExternals) (self : AesGcmJweEncryption)
    (key : Bytes) (iv : Option Bytes) (encrypted_message : Bytes) (aad : Bytes)
    (tag : Option Bytes) : Ret JoseError Bytes :=
  let expected_len := self.key_len
  if key.length ≠ expected_len then
    .error (.InvalidJweFormat "The length of content encryption key is unexpected.")
  else
    match tag with
    | none => .error (.InvalidJweFormat "A tag value is required.")
    | some tag =>
      match env.decrypt_aead self.cipher key iv aad encrypted_message tag with
      | some message => .ok message
      | none => .error (.InvalidJweFormat "openssl decrypt_aead failed")

/-! ### Concrete instances used by the closed theorems and witnesses

`toyPad` is an identity padding transform, `toyKey` the textbook RSA instance
`n = 33 = 3 * 11`, `e = 3`, `d = 7` (`e * d = 21 ≡ 1 (mod lcm(2, 10) = 10)`),
small enough that the modular arithmetic evaluates inside proofs while still
separating the public-exponent from the private-exponent operation. -/

/-- Identity padding transform: pads to nothing, unpads everything. -/
def toyPad : PaddingScheme := { pad := fun _ m => some m, unpad := fun m => some m }

/-- Textbook RSA key n = 33, e = 3, d = 7. -/
def toyKey : RsaKey := { n := 33, e := 3, d := 7 }

/-- Concrete external collaborators: identity padding, DER discarded, every
parse yields `toyKey`, and the random source yields the byte 2 repeated. -/
def toyExternals : Externals :=
  { b64decode := fun _ => some [1]
  , derBuild := fun _ => []
  , public_key_from_der := fun _ => some toyKey
  , private_key_from_der := fun _ => some toyKey
  , rand_bytes := fun len => List.replicate len 2
  , pkcs1 := toyPad
  , pkcs1_oaep := toyPad }

/-- An encrypter over `toyKey` for a chosen variant. -/
def toyEncrypterOf (alg : RsaesJweAlgorithm) : RsaesJweEncrypter :=
  { algorithm := alg, public_key := toyKey, key_id := none }

/-- A decrypter over `toyKey` for a chosen variant. -/
def toyDecrypterOf (alg : RsaesJweAlgorithm) : RsaesJweDecrypter :=
  { algorithm := alg, private_key := toyKey, key_id := none }

/-- An empty header. -/
def hdr0 : JweHeader := { algorithm := none, rest := [] }

/-- A 2048-bit RSA modulus (the smallest power of two with 2048 bits). -/
def key2047 : RsaKey := { n := 2 ^ 2047, e := 3, d := 3 }

/-- A 2041-bit RSA modulus: strictly fewer than 2048 bits, yet 256 bytes. -/
def key2040 : RsaKey := { n := 2 ^ 2040, e := 3, d := 3 }

/-- External collaborators whose key parsing yields the 2048-bit `key2047`. -/
def externals2047 : Externals :=
  { toyExternals with
    public_key_from_der := fun _ => some key2047
  , private_key_from_der := fun _ => some key2047 }

/-- External collaborators whose key parsing yields the 2041-bit `key2040`. -/
def externals2040 : Externals :=
  { toyExternals with
    public_key_from_der := fun _ => some key2040
  , private_key_from_der := fun _ => some key2040 }

/-- A JWK carrying every numeric field as a decodable string, `kty` RSA, all
key operations allowed, and a chosen `use` value. -/
def jwkWithUse (u : Option String) : Jwk :=
  { key_type := "RSA"
  , key_use := u
  , is_for_key_operation := fun _ => true
  , algorithm := none
  , key_id := none
  , parameter := fun _ => some (.str "AQ") }

/-- The decrypter the factory builds over `key2047`. -/
def dec2047 : RsaesJweDecrypter :=
  { algorithm := .RsaOaep, private_key := key2047, key_id := none }

/-- The encrypter the factory builds over `key2040`. -/
def enc2040 : RsaesJweEncrypter :=
  { algorithm := .RsaOaep, public_key := key2040, key_id := none }

/-- The decrypter the factory builds over `key2040`. -/
def dec2040 : RsaesJweDecrypter :=
  { algorithm := .RsaOaep, private_key := key2040, key_id := none }

/-- A JWK whose `kty` is "EC". -/
def jwkEc : Jwk :=
  { key_type := "EC"
  , key_use := none
  , is_for_key_operation := fun _ => true
  , algorithm := none
  , key_id := none
  , parameter := fun _ => some (.str "AQ") }

/-- Concrete AEAD collaborators: encryption concatenates, tag is 16 zero
bytes, decryption returns the ciphertext. -/
def toySymm : SymmExternals :=
  { encrypt_aead := fun _ _ _ _ msg => some (msg, List.replicate 16 0)
  , decrypt_aead := fun _ _ _ _ c _ => some c }

/-! ### Helper lemmas -/

/-- Pin down `Nat.size` (the bit length openssl's `BN_num_bits` computes)
from a two-sided power bound. -/
theorem size_of_bounds {k n : Nat} (h₁ : 2 ^ k ≤ n) (h₂ : n < 2 ^ (k + 1)) :
    Nat.size n = k + 1 :=
  le_antisymm (Nat.size_le.mpr h₂) (Nat.lt_size.mpr h₁)

/-- `toyKey` (n = 33) occupies one byte. -/
theorem toyKey_size : toyKey.size = 1 := by
  have h : Nat.size 33 = 6 := size_of_bounds (by norm_num) (by norm_num)
  simp [RsaKey.size, toyKey, h]

/-- The byte size of a key whose modulus is a power of two. -/
theorem RsaKey_size_pow (k e d : Nat) : (RsaKey.mk (2 ^ k) e d).size = (k + 1 + 7) / 8 := by
  unfold RsaKey.size
  rw [Nat.size_pow]

/-- `key2047` (n = 2 ^ 2047, a 2048-bit modulus) occupies 256 bytes. -/
theorem key2047_size : key2047.size = 256 := by
  rw [show key2047 = ⟨2 ^ 2047, 3, 3⟩ from rfl, RsaKey_size_pow]

/-- `key2040` (n = 2 ^ 2040, a 2041-bit modulus) also occupies 256 bytes. -/
theorem key2040_size : key2040.size = 256 := by
  rw [show key2040 = ⟨2 ^ 2040, 3, 3⟩ from rfl, RsaKey_size_pow]

/-- `check_key` succeeds exactly when the byte size times 8 reaches 2048. -/
theorem check_key_ok_iff (alg : RsaesJweAlgorithm) (k : RsaKey) (u : Unit) :
    alg.check_key k = .ok u ↔ 2048 ≤ k.size * 8 := by
  cases u
  unfold RsaesJweAlgorithm.check_key
  split
  · constructor
    · intro h
      exact absurd h (by simp)
    · intro h
      exact ((by omega : False)).elim
  · constructor
    · intro _
      omega
    · intro _
      rfl

/-- `check_key` accepts `key2047`. -/
theorem check_key_key2047 (alg : RsaesJweAlgorithm) : alg.check_key key2047 = .ok () := by
  rw [check_key_ok_iff, key2047_size]

/-- `check_key` accepts `key2040`, although its modulus has 2041 bits. -/
theorem check_key_key2040 (alg : RsaesJweAlgorithm) : alg.check_key key2040 = .ok () := by
  rw [check_key_ok_iff, key2040_size]

/-- `wrapKeyFormat` preserves success. -/
theorem wrapKeyFormat_ok {α : Type} {x : Except String α} {a : α}
    (h : wrapKeyFormat x = .ok a) : x = .ok a := by
  cases x with
  | ok v =>
    have hv : v = a := by simpa [wrapKeyFormat] using h
    rw [hv]
  | error s => simp [wrapKeyFormat] at h

/-- Wrapping the toy CEK `[2]` under `toyKey`'s public exponent yields `[8]`
(`2 ^ 3 mod 33 = 8`). -/
theorem toy_public_encrypt_eval : public_encrypt toyPad toyKey [2] = some [8] := by
  simp only [public_encrypt, toyPad, toyKey_size]
  decide

/-- `rsa.public_decrypt` applied to the wrapped key `[8]` yields `[17]`
(`8 ^ 3 mod 33 = 17`), not the CEK. -/
theorem toy_public_decrypt_eval : public_decrypt toyPad toyKey [8] = some [17] := by
  simp only [public_decrypt, toyPad, toyKey_size]
  decide

/-- `rsa.private_decrypt` applied to the wrapped key `[8]` yields the CEK
`[2]` (`8 ^ 7 mod 33 = 2`). -/
theorem toy_private_decrypt_eval : private_decrypt toyPad toyKey [8] = some [2] := by
  simp only [private_decrypt, toyPad, toyKey_size]
  decide

/-- The toy encrypter run: CEK `[2]`, wrapped key `[8]`. -/
theorem toy_encrypt_eval :
    (RsaesJweEncrypter.encrypt toyExternals (toyEncrypterOf .Rsa1_5) hdr0 1).2
      = .ok ([2], some [8]) := by
  simp only [RsaesJweEncrypter.encrypt, toyExternals, toyEncrypterOf, List.replicate,
    toy_public_encrypt_eval]

/-- The toy decrypter run over the wrapped key `[8]` returns `[17]` — a
1-byte key of the requested length, but not the CEK. -/
theorem toy_decrypt_eval :
    RsaesJweDecrypter.decrypt toyExternals (toyDecrypterOf .Rsa1_5) hdr0 (some [8]) 1
      = .ok [17] := by
  simp only [RsaesJweDecrypter.decrypt, toyExternals, toyDecrypterOf, toy_public_decrypt_eval]
  decide

/-- Generic success condition for the encrypter factory: when every check of
the chain passes and parsing returns `k`, the factory returns the encrypter
built from `k` (stated at a symbolic key). -/
theorem encrypter_from_jwk_ok_of (alg : RsaesJweAlgorithm) (env : Externals) (jwk : Jwk)
    (bn be : Bytes) (k : RsaKey)
    (h1 : jwk.key_type = "RSA")
    (h2 : encrypterUseCheck jwk.key_use = .ok ())
    (h3 : jwk.is_for_key_operation "encrypt" = true)
    (h4 : jwk.is_for_key_operation "wrapKey" = true)
    (h5 : algCheck alg jwk.algorithm = .ok ())
    (h6 : getB64Param env jwk "n" = .ok bn)
    (h7 : getB64Param env jwk "e" = .ok be)
    (h8 : env.public_key_from_der (alg.to_pkcs8 env
        (env.derBuild (.sequence [.integer bn false, .integer be false])) true) = some k)
    (h9 : alg.check_key k = .ok ()) :
    alg.encrypter_from_jwk env jwk
      = .ok { algorithm := alg, public_key := k, key_id := jwk.key_id } := by
  simp [RsaesJweAlgorithm.encrypter_from_jwk, wrapKeyFormat, h1, h2, h3, h4, h5, h6, h7, h8, h9]

/-- Generic success condition for the decrypter factory, analogous to
`encrypter_from_jwk_ok_of`. -/
theorem decrypter_from_jwk_ok_of (alg : RsaesJweAlgorithm) (env : Externals) (jwk : Jwk)
    (bn be bd bp bq bdp bdq bqi : Bytes) (k : RsaKey)
    (h1 : jwk.key_type = "RSA")
    (h2 : decrypterUseCheck jwk.key_use = .ok ())
    (h3 : jwk.is_for_key_operation "decrypt" = true)
    (h4 : jwk.is_for_key_operation "unwrapKey" = true)
    (h5 : algCheck alg jwk.algorithm = .ok ())
    (h6 : getB64Param env jwk "n" = .ok bn)
    (h7 : getB64Param env jwk "e" = .ok be)
    (h8 : getB64Param env jwk "d" = .ok bd)
    (h9 : getB64Param env jwk "p" = .ok bp)
    (h10 : getB64Param env jwk "q" = .ok bq)
    (h11 : getB64Param env jwk "dp" = .ok bdp)
    (h12 : getB64Param env jwk "dq" = .ok bdq)
    (h13 : getB64Param env jwk "qi" = .ok bqi)
    (h14 : env.private_key_from_der (alg.to_pkcs8 env
        (env.derBuild (.sequence
          [.integerU8 0, .integer bn false, .integer be false, .integer bd false,
           .integer bp false, .integer bq false, .integer bdp false, .integer bdq false,
           .integer bqi false])) false) = some k)
    (h15 : alg.check_key k = .ok ()) :
    alg.decrypter_from_jwk env jwk
      = .ok { algorithm := alg, private_key := k, key_id := jwk.key_id } := by
  simp [RsaesJweAlgorithm.decrypter_from_jwk, wrapKeyFormat, h1, h2, h3, h4, h5, h6, h7, h8,
    h9, h10, h11, h12, h13, h14, h15]

/-- The decrypter factory accepts a JWK with `use = "sig"` over the 2048-bit
key, and completes. -/
theorem decrypter2047_ok :
    RsaesJweAlgorithm.RsaOaep.decrypter_from_jwk externals2047 (jwkWithUse (some "sig"))
      = .ok dec2047 :=
  decrypter_from_jwk_ok_of .RsaOaep externals2047 (jwkWithUse (some "sig"))
    [1] [1] [1] [1] [1] [1] [1] [1] key2047
    rfl rfl rfl rfl rfl rfl rfl rfl rfl rfl rfl rfl rfl rfl (check_key_key2047 _)

/-- The encrypter factory accepts the 2041-bit key `key2040`. -/
theorem encrypter2040_ok :
    RsaesJweAlgorithm.RsaOaep.encrypter_from_jwk externals2040 (jwkWithUse none)
      = .ok enc2040 :=
  encrypter_from_jwk_ok_of .RsaOaep externals2040 (jwkWithUse none) [1] [1] key2040
    rfl rfl rfl rfl rfl rfl rfl rfl (check_key_key2040 _)

/-- The decrypter factory accepts the 2041-bit key `key2040`. -/
theorem decrypter2040_ok :
    RsaesJweAlgorithm.RsaOaep.decrypter_from_jwk externals2040 (jwkWithUse none)
      = .ok dec2040 :=
  decrypter_from_jwk_ok_of .RsaOaep externals2040 (jwkWithUse none)
    [1] [1] [1] [1] [1] [1] [1] [1] key2040
    rfl rfl rfl rfl rfl rfl rfl rfl rfl rfl rfl rfl rfl rfl (check_key_key2040 _)

/-! ### Claims -/

/-- C1: the round trip fails on the code as written. `decrypt` recovers the
wrapped key with `rsa.public_decrypt` — the public-exponent operation — so
`decrypt(encrypt(cek))` computes `cek ^ (e * e) mod n` instead of `cek`:
on the textbook instance the encrypter wraps CEK `[2]` into `[8]`
(`2 ^ 3 mod 33`), the decrypter returns `[17]` (`8 ^ 3 mod 33`) rather than
`[2]`, while the private-exponent operation `private_decrypt` (what
`RSA_private_decrypt` performs) does recover `[2]` (`8 ^ 7 mod 33`). -/
theorem rsaes_roundtrip_public_decrypt_bug :
    (RsaesJweEncrypter.encrypt toyExternals (toyEncrypterOf .Rsa1_5) hdr0 1).2
        = .ok ([2], some [8]) ∧
    RsaesJweDecrypter.decrypt toyExternals (toyDecrypterOf .Rsa1_5) hdr0 (some [8]) 1
        = .ok [17] ∧
    ([17] : Bytes) ≠ ([2] : Bytes) ∧
    private_decrypt toyExternals.pkcs1 toyKey [8] = some [2] :=
  ⟨toy_encrypt_eval, toy_decrypt_eval, by decide, toy_private_decrypt_eval⟩

/-- C2: the RSA-OAEP-256/384/512 arms of both `encrypt` and `decrypt` are
`todo!()`: they panic instead of returning an "unsupported" error. -/
theorem rsaes_sha2_oaep_todo_panics :
    (RsaesJweEncrypter.encrypt toyExternals (toyEncrypterOf .RsaOaep256) hdr0 16).2
        = .panicked "not yet implemented" ∧
    (RsaesJweEncrypter.encrypt toyExternals (toyEncrypterOf .RsaOaep384) hdr0 16).2
        = .panicked "not yet implemented" ∧
    (RsaesJweEncrypter.encrypt toyExternals (toyEncrypterOf .RsaOaep512) hdr0 16).2
        = .panicked "not yet implemented" ∧
    RsaesJweDecrypter.decrypt toyExternals (toyDecrypterOf .RsaOaep256) hdr0 (some [8]) 16
        = .panicked "not yet implemented" ∧
    RsaesJweDecrypter.decrypt toyExternals (toyDecrypterOf .RsaOaep384) hdr0 (some [8]) 16
        = .panicked "not yet implemented" ∧
    RsaesJweDecrypter.decrypt toyExternals (toyDecrypterOf .RsaOaep512) hdr0 (some [8]) 16
        = .panicked "not yet implemented" :=
  ⟨rfl, rfl, rfl, rfl, rfl, rfl⟩

/-- C3: the decrypter factory does not validate `use` the way the encrypter
does. Its check is `use == "sig"`: a JWK with `use = "enc"` (which the
encrypter accepts) is rejected by the decrypter, while `use = "sig"` (which
the encrypter rejects) passes and the decrypter is constructed. -/
theorem decrypter_usage_check_is_sig :
    decrypterUseCheck (some "enc") = .error "A parameter use must be sig: enc" ∧
    decrypterUseCheck (some "sig") = .ok () ∧
    encrypterUseCheck (some "enc") = .ok () ∧
    encrypterUseCheck (some "sig") = .error "A parameter use must be enc: sig" ∧
    RsaesJweAlgorithm.RsaOaep.decrypter_from_jwk externals2047 (jwkWithUse (some "sig"))
        = .ok dec2047 ∧
    (RsaesJweAlgorithm.RsaOaep.decrypter_from_jwk externals2047
        (jwkWithUse (some "enc"))).isErr = true :=
  ⟨rfl, rfl, rfl, rfl, decrypter2047_ok, by decide⟩

/-- C4: `encrypt` overwrites the header's algorithm field with the variant's
canonical name, unconditionally (the write happens before the wrap attempt),
and touches no other header entry. -/
theorem encrypt_sets_header_algorithm (env : Externals) (self : RsaesJweEncrypter)
    (header : JweHeader) (key_len : Nat) :
    (RsaesJweEncrypter.encrypt env self header key_len).1.algorithm
        = some self.algorithm.name ∧
    (RsaesJweEncrypter.encrypt env self header key_len).1.rest = header.rest :=
  ⟨rfl, rfl⟩

/-- C5: `decrypt` with an absent wrapped key fails immediately, for every
variant, key, header and requested CEK length. -/
theorem decrypt_absent_wrapped_key_errors (env : Externals) (self : RsaesJweDecrypter)
    (header : JweHeader) (key_len : Nat) :
    RsaesJweDecrypter.decrypt env self header none key_len
      = .error (.InvalidJweFormat "A encrypted_key is required.") := rfl

/-- C6: for the implemented variants, `decrypt` succeeds only with a
recovered key of exactly the requested length, and a recovered key of any
other length makes it return an error. -/
theorem decrypt_cek_length_validated (env : Externals) (self : RsaesJweDecrypter)
    (header : JweHeader) (ek : Bytes) (key_len : Nat)
    (halg : self.algorithm = .Rsa1_5 ∨ self.algorithm = .RsaOaep) :
    (∀ key, RsaesJweDecrypter.decrypt env self header (some ek) key_len = .ok key →
        key.length = key_len) ∧
    (∀ key, public_decrypt (paddingFor env self.algorithm) self.private_key ek = some key →
        key.length ≠ key_len →
        (RsaesJweDecrypter.decrypt env self header (some ek) key_len).isErr = true) := by
  rcases halg with h | h <;>
  · constructor
    · intro key hk
      simp only [RsaesJweDecrypter.decrypt] at hk
      repeat split at hk
      all_goals simp_all
    · intro key hpd hne
      rw [h] at hpd
      simp only [paddingFor] at hpd
      simp only [RsaesJweDecrypter.decrypt, h, hpd]
      rw [if_pos hne]
      rfl

/-- Witness for C6 at the toy instance: the 1-byte recovered key `[17]`
matches the requested length 1. -/
theorem decrypt_cek_length_validated_w : ([17] : Bytes).length = 1 :=
  (decrypt_cek_length_validated toyExternals (toyDecrypterOf .Rsa1_5) hdr0 [8] 1
    (Or.inl rfl)).1 [17] toy_decrypt_eval

/-- C7 counterexample: `check_key` compares `rsa.size() * 8` — the byte
length times 8 — against 2048, so the 2041-bit modulus `2 ^ 2040` (256
bytes) is accepted by both factories although it is smaller than 2048 bits. -/
theorem rsa_2041_bit_modulus_accepted :
    Nat.size key2040.n = 2041 ∧ (2041 : Nat) < 2048 ∧
    RsaesJweAlgorithm.RsaOaep.encrypter_from_jwk externals2040 (jwkWithUse none)
        = .ok enc2040 ∧
    RsaesJweAlgorithm.RsaOaep.decrypter_from_jwk externals2040 (jwkWithUse none)
        = .ok dec2040 :=
  ⟨by rw [show key2040.n = 2 ^ 2040 from rfl, Nat.size_pow], by norm_num,
    encrypter2040_ok, decrypter2040_ok⟩

/-- C7 amended: what the factories do enforce is `rsa.size() * 8 ≥ 2048`,
i.e. a modulus byte length of at least 256 — every successfully constructed
Encrypter/Decrypter satisfies that bound (but a 2041..2047-bit modulus
passes it). -/
theorem factories_enforce_byte_size_bound (env : Externals) (alg : RsaesJweAlgorithm)
    (jwk : Jwk) :
    (∀ enc, alg.encrypter_from_jwk env jwk = .ok enc → 2048 ≤ enc.public_key.size * 8) ∧
    (∀ dec, alg.decrypter_from_jwk env jwk = .ok dec → 2048 ≤ dec.private_key.size * 8) := by
  constructor
  · intro enc hok
    simp only [RsaesJweAlgorithm.encrypter_from_jwk] at hok
    have h := wrapKeyFormat_ok hok
    iterate 12 all_goals try split at h
    all_goals simp_all [check_key_ok_iff]
    all_goals try subst enc
    all_goals simp_all
  · intro dec hok
    simp only [RsaesJweAlgorithm.decrypter_from_jwk] at hok
    have h := wrapKeyFormat_ok hok
    iterate 14 all_goals try split at h
    all_goals simp_all [check_key_ok_iff]
    all_goals try subst dec
    all_goals simp_all

/-- Witness for C7 at the 2048-bit key: the constructed decrypter's key
satisfies the byte-size bound. -/
theorem factories_enforce_byte_size_bound_w : 2048 ≤ dec2047.private_key.size * 8 :=
  (factories_enforce_byte_size_bound externals2047 .RsaOaep (jwkWithUse (some "sig"))).2
    dec2047 decrypter2047_ok

/-- C8: a JWK whose `kty` is not "RSA" is rejected by both factories, for
every variant and every environment. -/
theorem factories_reject_non_rsa_kty (env : Externals) (alg : RsaesJweAlgorithm) (jwk : Jwk)
    (h : jwk.key_type ≠ "RSA") :
    (alg.encrypter_from_jwk env jwk).isErr = true ∧
    (alg.decrypter_from_jwk env jwk).isErr = true := by
  constructor
  · simp only [RsaesJweAlgorithm.encrypter_from_jwk]
    rw [if_pos h]
    rfl
  · simp only [RsaesJweAlgorithm.decrypter_from_jwk]
    rw [if_pos h]
    rfl

/-- Witness for C8: an "EC" JWK is rejected by both factories. -/
theorem factories_reject_non_rsa_kty_w :
    (RsaesJweAlgorithm.Rsa1_5.encrypter_from_jwk toyExternals jwkEc).isErr = true ∧
    (RsaesJweAlgorithm.Rsa1_5.decrypter_from_jwk toyExternals jwkEc).isErr = true :=
  factories_reject_non_rsa_kty toyExternals .Rsa1_5 jwkEc (by decide)

/-- C9: AES-GCM `encrypt` and `decrypt` reject a key whose length differs
from the variant's fixed key size, before any AEAD call, whatever the other
arguments are. -/
theorem aes_gcm_wrong_key_length_errors (env : SymmExternals) (self : AesGcmJweEncryption)
    (key : Bytes) (iv : Option Bytes) (message aad : Bytes) (tag : Option Bytes)
    (h : key.length ≠ self.key_len) :
    (AesGcmJweEncryption.encrypt env self key iv message aad).isErr = true ∧
    (AesGcmJweEncryption.decrypt env self key iv message aad tag).isErr = true := by
  constructor
  · simp only [AesGcmJweEncryption.encrypt]
    rw [if_pos h]
    rfl
  · simp only [AesGcmJweEncryption.decrypt]
    rw [if_pos h]
    rfl

/-- Witness for C9: the empty key is rejected by A128GCM. -/
theorem aes_gcm_wrong_key_length_errors_w :
    (AesGcmJweEncryption.encrypt toySymm .A128Gcm [] none [] []).isErr = true ∧
    (AesGcmJweEncryption.decrypt toySymm .A128Gcm [] none [] [] none).isErr = true :=
  aes_gcm_wrong_key_length_errors toySymm .A128Gcm [] none [] [] none (by decide)

/-- C10: `decrypt` never reads its header argument: two calls differing only
in the header return the same result. -/
theorem decrypt_header_independent (env : Externals) (self : RsaesJweDecrypter)
    (h1 h2 : JweHeader) (encrypted_key : Option Bytes) (key_len : Nat) :
    RsaesJweDecrypter.decrypt env self h1 encrypted_key key_len
      = RsaesJweDecrypter.decrypt env self h2 encrypted_key key_len := rfl

end Josekit
